import Mathlib

/-!
Verification development for the dunkin_vendorpay_ai repository.

The development shallowly embeds the two algorithmic cores of the
repository — the document-processing pipeline
(`src/ai_models/document_processor.py`) and the transaction
reconciliation engine (`src/ai_models/reconciliation_engine.py`) — and
proves the properties stated about them.

Modelling conventions:
- Python floats are modelled as exact rationals (`ℚ`); the numeric
  claims under test are tolerance/threshold comparisons on small
  decimal constants where exact arithmetic is the intended reading.
- Python strings are modelled as Lean `String` / `List Char`; the
  inputs at stake are ASCII, where `Char.toLower` agrees with
  `str.lower()`.
- A transaction's `transaction_date` string field is modelled by the
  result of the engine's `_parse_date` helper: `Option ℤ` (a day
  index), `none` standing for an empty or unparseable date string.
  Differences of `datetime.date` values in days are exact integer
  differences.
- Database writes performed through `SupabaseManager` are modelled as
  pure state transitions on an explicit `Store`; whether each kind of
  write succeeds is a boolean parameter, and a raised Python exception
  is modelled as an `Option String` error component carried next to
  the (partially mutated) state.
-/

namespace VendorPay

/-! ### Character and list-of-characters helpers

These embed the Python string primitives used by the source:
substring containment (`in`), `str.lower()`, `str.strip()`,
`str.replace`, and the whitespace class `\s` of the `re` module
(ASCII subset; all inputs considered are ASCII). -/

/-- Python whitespace class `\s` (ASCII subset). -/
def isPyWs (c : Char) : Bool :=
  c = ' ' || c = '\t' || c = '\n' || c = '\r' || c = '\x0b' || c = '\x0c'

/-- Boolean list-prefix test (`startsWith` on character lists). -/
def startsWithL : List Char → List Char → Bool
  | [], _ => true
  | _ :: _, [] => false
  | p :: ps, c :: cs => p = c && startsWithL ps cs

/-- Boolean contiguous-sublist test: Python's `p in s` for strings. -/
def containsL (p : List Char) : List Char → Bool
  | [] => p.isEmpty
  | c :: cs => startsWithL p (c :: cs) || containsL p cs

/-- Lowercase every character: Python `str.lower()` (ASCII). -/
def lowerL (cs : List Char) : List Char := cs.map Char.toLower

/-- Lowercase a string, via `lowerL`. -/
def lowerStr (s : String) : String := String.mk (lowerL s.toList)

/-- Strip leading and trailing whitespace: Python `str.strip()`. -/
def stripL (cs : List Char) : List Char :=
  ((cs.dropWhile isPyWs).reverse.dropWhile isPyWs).reverse

/-- Fuel-driven worker for `replaceAllL`; the fuel is structural so
the kernel can evaluate the function on concrete inputs.  Each step
consumes at least one input character, so `length + 1` fuel always
suffices. -/
def replaceAllAux (pat rep : List Char) : Nat → List Char → List Char
  | 0, cs => cs
  | _ + 1, [] => []
  | fuel + 1, c :: cs =>
    if startsWithL pat (c :: cs) && !pat.isEmpty then
      rep ++ replaceAllAux pat rep fuel (cs.drop (pat.length - 1))
    else
      c :: replaceAllAux pat rep fuel cs

/-- Replace every (non-overlapping, left-to-right) occurrence of `pat`
by `rep`: Python `str.replace(pat, rep)`.  Call sites only use
non-empty patterns; an empty pattern leaves the input unchanged. -/
def replaceAllL (pat rep cs : List Char) : List Char :=
  replaceAllAux pat rep (cs.length + 1) cs

/-- Python `text.split('\n')[0]`: the text up to the first newline. -/
def firstLineL (cs : List Char) : List Char :=
  cs.takeWhile (fun c => c ≠ '\n')

/-! ### Document classifier

Embedding of `DocumentProcessor._classify_document_advanced`
(`src/ai_models/document_processor.py`, lines 345-377). -/

namespace DocumentProcessor

/-- Keyword set for invoices (source line 353). -/
def invoice_keywords : List String :=
  ["invoice", "bill to", "due date", "subtotal", "tax", "total amount"]

/-- Keyword set for bank statements (source line 358). -/
def bank_keywords : List String :=
  ["bank statement", "balance", "deposit", "debit", "credit", "account"]

/-- Keyword set for checks (source line 363). -/
def check_keywords : List String :=
  ["check", "pay to", "dollars", "routing number"]

/-- Keyword set for sales reports (source line 368). -/
def sales_keywords : List String :=
  ["sales report", "daily sales", "units", "payment methods"]

/-- Keyword set for receipts (source line 373). -/
def receipt_keywords : List String :=
  ["receipt", "total", "cash", "credit card", "thank you"]

/-- Number of keywords of `kws` occurring as substrings of the
(already lowercased) text: `sum(1 for keyword in kws if keyword in text_lower)`. -/
def keywordScore (kws : List String) (text_lower : List Char) : Nat :=
  (kws.filter (fun kw => containsL kw.toList text_lower)).length

/-- Embedding of `_classify_document_advanced`: `unknown` for empty or
sentinel-prefixed text, otherwise the first class in the fixed order
whose keyword count reaches 2, else `general_document`. -/
def classify_document_advanced (text : String) : String :=
  let cs := text.toList
  if cs.isEmpty || startsWithL ['['] cs then "unknown"
  else
    let text_lower := lowerL cs
    if 2 ≤ keywordScore invoice_keywords text_lower then "invoice"
    else if 2 ≤ keywordScore bank_keywords text_lower then "bank_statement"
    else if 2 ≤ keywordScore check_keywords text_lower then "check"
    else if 2 ≤ keywordScore sales_keywords text_lower then "sales_report"
    else if 2 ≤ keywordScore receipt_keywords text_lower then "receipt"
    else "general_document"

/-- The candidate classes in the fixed priority order of the spec,
each paired with its keyword set. -/
def classOrder : List (String × List String) :=
  [("invoice", invoice_keywords),
   ("bank_statement", bank_keywords),
   ("check", check_keywords),
   ("sales_report", sales_keywords),
   ("receipt", receipt_keywords)]

/-- Classifier written directly from the spec's words, for the
refinement comparison: lower-case the text and return the FIRST class
in `classOrder` whose keyword count reaches 2, `general_document` when
none does, `unknown` for empty or sentinel-prefixed text. -/
def classifySpec (text : String) : String :=
  let cs := text.toList
  if cs.isEmpty || startsWithL ['['] cs then "unknown"
  else
    match classOrder.find? (fun p => 2 ≤ keywordScore p.2 (lowerL cs)) with
    | some p => p.1
    | none => "general_document"

end DocumentProcessor

/-! ### Field extraction

Embedding of the `_extract_*_fields` helpers of
`src/ai_models/document_processor.py` (lines 410-528).  Each Python
`re.search(pattern, text, re.IGNORECASE)` call is embedded by a
dedicated scanner: a matcher that attempts the pattern at one position
(greedy, as all quantifiers in these patterns are greedy and their
components have disjoint follow sets on the inputs considered) and a
`searchL` wrapper that tries every position left to right, returning
the first capture.  Literal parts are matched case-insensitively; the
captured text keeps its original case, as under `re.IGNORECASE`. -/

namespace DocumentProcessor

/-- Leftmost-match search: try the position matcher `f` at every
suffix, left to right (the semantics of `re.search`). -/
def searchL (f : List Char → Option (List Char)) : List Char → Option (List Char)
  | [] => f []
  | c :: cs =>
    match f (c :: cs) with
    | some r => some r
    | none => searchL f cs

/-- Drop a case-insensitive literal (given lowercased) from the front,
or fail. -/
def dropLit : List Char → List Char → Option (List Char)
  | [], cs => some cs
  | _ :: _, [] => none
  | l :: ls, c :: cs => if c.toLower = l then dropLit ls cs else none

/-- Drop one optional literal character (`x?` in a pattern). -/
def dropOpt (x : Char) : List Char → List Char
  | [] => []
  | c :: cs => if c = x then cs else c :: cs

/-- Capture a non-empty greedy run of characters satisfying `p`
(`(cls+)` in a pattern). -/
def capturePlus (p : Char → Bool) (cs : List Char) : Option (List Char) :=
  let cap := cs.takeWhile p
  if cap.isEmpty then none else some cap

/-- Character class `[A-Z0-9-]` under `re.IGNORECASE`. -/
def isInvNumChar (c : Char) : Bool := c.isAlpha || c.isDigit || c = '-'

/-- Character class `[X*\d-]` under `re.IGNORECASE`. -/
def isAcctChar (c : Char) : Bool := c.toLower = 'x' || c = '*' || c.isDigit || c = '-'

/-- Matcher for `key\s*#?:?\s*(cls+)` at one position (used by the
invoice-number, account-number and check-number patterns). -/
def matchKeyHashColon (key : String) (cls : Char → Bool) (cs : List Char) :
    Option (List Char) :=
  (dropLit key.toList cs).bind fun r =>
    capturePlus cls (((dropOpt ':' (dropOpt '#' (r.dropWhile isPyWs)))).dropWhile isPyWs)

/-- Matcher for `key:?\s*([^\n]+)` at one position (used by the
`from:`/`location:` patterns; the `\n?` of the `from` pattern is
subsumed by the preceding greedy `\s*`). -/
def matchKeyRestOfLine (key : String) (cs : List Char) : Option (List Char) :=
  (dropLit key.toList cs).bind fun r =>
    capturePlus (fun c => c ≠ '\n') ((dropOpt ':' r).dropWhile isPyWs)

/-- Matcher for `w1\s+w2:?\s*([^\n]+)` at one position (used by the
`due date:` and `pay to:` patterns). -/
def matchTwoWordsRestOfLine (w1 w2 : String) (cs : List Char) : Option (List Char) :=
  (dropLit w1.toList cs).bind fun r =>
    let sp := r.takeWhile isPyWs
    if sp.isEmpty then none
    else
      (dropLit w2.toList (r.dropWhile isPyWs)).bind fun r2 =>
        capturePlus (fun c => c ≠ '\n') ((dropOpt ':' r2).dropWhile isPyWs)

/-- Matcher for `key:?\s*\$?([\d,]+\.?\d*)` at one position (used by
the `total:`/`balance:`/`amount:` money patterns). -/
def matchKeyMoney (key : String) (cs : List Char) : Option (List Char) :=
  (dropLit key.toList cs).bind fun r =>
    let r2 := dropOpt '$' ((dropOpt ':' r).dropWhile isPyWs)
    let d1 := r2.takeWhile (fun c => c.isDigit || c = ',')
    if d1.isEmpty then none
    else
      match r2.drop d1.length with
      | '.' :: r3 => some (d1 ++ '.' :: r3.takeWhile Char.isDigit)
      | _ => some d1

/-- Optional field entry: a singleton or empty association list. -/
def optField (name : String) (v : Option (List Char)) : List (String × String) :=
  match v with
  | some cap => [(name, String.mk cap)]
  | none => []

/-- Embedding of `_extract_invoice_fields` (lines 427-451). -/
def extract_invoice_fields (text : String) : List (String × String) :=
  let cs := text.toList
  optField "invoice_number" (searchL (matchKeyHashColon "invoice" isInvNumChar) cs) ++
  optField "vendor_name" ((searchL (matchKeyRestOfLine "from") cs).map stripL) ++
  optField "due_date" ((searchL (matchTwoWordsRestOfLine "due" "date") cs).map stripL) ++
  optField "total_amount" (searchL (matchKeyMoney "total") cs)

/-- Embedding of `_extract_bank_statement_fields` (lines 453-467). -/
def extract_bank_statement_fields (text : String) : List (String × String) :=
  let cs := text.toList
  optField "balance" (searchL (matchKeyMoney "balance") cs) ++
  optField "account_number" (searchL (matchKeyHashColon "account" isAcctChar) cs)

/-- Embedding of `_extract_check_fields` (lines 469-488). -/
def extract_check_fields (text : String) : List (String × String) :=
  let cs := text.toList
  optField "check_number" (searchL (matchKeyHashColon "check" Char.isDigit) cs) ++
  optField "pay_to" ((searchL (matchTwoWordsRestOfLine "pay" "to") cs).map stripL) ++
  optField "amount" (searchL (matchKeyMoney "amount") cs)

/-- Embedding of `_extract_sales_report_fields` (lines 490-504). -/
def extract_sales_report_fields (text : String) : List (String × String) :=
  let cs := text.toList
  optField "location" ((searchL (matchKeyRestOfLine "location") cs).map stripL) ++
  optField "total_sales" (searchL (matchKeyMoney "total") cs)

/-- Embedding of `_extract_receipt_fields` (lines 506-528): first line
as merchant name, money after `total`, and a payment-method label from
the first matching keyword among cash/credit/debit. -/
def extract_receipt_fields (text : String) : List (String × String) :=
  let cs := text.toList
  [("merchant_name", String.mk (stripL (firstLineL cs)))] ++
  optField "total_amount" (searchL (matchKeyMoney "total") cs) ++
  (if containsL "cash".toList (lowerL cs) then [("payment_method", "Cash")]
   else if containsL "credit".toList (lowerL cs) then [("payment_method", "Credit Card")]
   else if containsL "debit".toList (lowerL cs) then [("payment_method", "Debit Card")]
   else [])

/-- Embedding of `_extract_structured_fields` (lines 410-425): dispatch
on the document type, empty mapping for any other type. -/
def extract_structured_fields (text : String) (doc_type : String) :
    List (String × String) :=
  if doc_type = "invoice" then extract_invoice_fields text
  else if doc_type = "bank_statement" then extract_bank_statement_fields text
  else if doc_type = "check" then extract_check_fields text
  else if doc_type = "sales_report" then extract_sales_report_fields text
  else if doc_type = "receipt" then extract_receipt_fields text
  else []

end DocumentProcessor

/-! ### Reconciliation engine: data model

Embedding of the transaction dictionaries handled by
`src/ai_models/reconciliation_engine.py` and of the rows written
through `src/core/supabase_manager.py`.  `transaction_date` holds the
result of the engine's `_parse_date` helper (`none` for an empty or
unparseable date string); amounts are exact rationals. -/

/-- A statement transaction (a bank/card feed row). -/
structure StmtTrans where
  id : Nat
  amount : ℚ
  transaction_date : Option ℤ
  transaction_type : String
  description : String
deriving DecidableEq, Repr

/-- A business transaction (an outgoing or incoming ledger row; the
variant is carried separately as the `business_type` argument).
An absent vendor name is the empty string (falsy in Python). -/
structure BizTrans where
  id : Nat
  amount : ℚ
  transaction_date : Option ℤ
  description : String
  vendor_name : String
deriving DecidableEq, Repr

/-- A match dictionary as built by `_run_exact_matching`. -/
structure MatchRec where
  statement_transaction : StmtTrans
  business_transaction : BizTrans
  business_transaction_type : String
  confidence_score : ℚ
  match_type : String
deriving DecidableEq, Repr

/-- A row of the `reconciliation_records` table, as built by
`_create_reconciliation_record`. -/
structure ReconRecord where
  statement_transaction_id : Nat
  business_transaction_id : Nat
  business_transaction_type : String
  match_type : String
  confidence_score : ℚ
  reconciled_by : String
deriving DecidableEq, Repr

/-- The reconciliation-record row derived from a match dictionary
(`_create_reconciliation_record`, lines 157-164). -/
def toReconRecord (m : MatchRec) : ReconRecord :=
  { statement_transaction_id := m.statement_transaction.id
    business_transaction_id := m.business_transaction.id
    business_transaction_type := m.business_transaction_type
    match_type := m.match_type
    confidence_score := m.confidence_score
    reconciled_by := "system" }

/-! ### Exact matcher

Embedding of `ExactMatcher.is_match`
(`src/ai_models/reconciliation_engine.py`, lines 209-244). -/

namespace ExactMatcher

/-- Embedding of `ExactMatcher.is_match`: absolute amount tolerance
0.01, date difference at most 3 days on parseable dates, and the
statement direction must align with the business variant.  The
`except` clause of the source cannot fire in this model (amounts are
already numeric). -/
def is_match (statement_trans : StmtTrans) (business_trans : BizTrans)
    (business_type : String) : Bool :=
  let stmt_amount := |statement_trans.amount|
  let business_amount := business_trans.amount
  if 1/100 < |stmt_amount - business_amount| then false
  else
    match statement_trans.transaction_date, business_trans.transaction_date with
    | some stmt_date, some business_date =>
      if 3 < (stmt_date - business_date).natAbs then false
      else if business_type = "outgoing" &&
          lowerStr statement_trans.transaction_type ≠ "debit" then false
      else if business_type = "incoming" &&
          lowerStr statement_trans.transaction_type ≠ "credit" then false
      else true
    | _, _ => false

end ExactMatcher

/-! ### Fuzzy matcher

Embedding of `FuzzyMatcher`
(`src/ai_models/reconciliation_engine.py`, lines 258-353).  The text
similarity primitive `difflib.SequenceMatcher(None, a, b).ratio()` is
an external library capability and is taken as a parameter `sim`;
everything around it (description cleaning, the empty-string guard of
`_calculate_similarity`, the vendor-name alternative, the score
weighting and the threshold test) is embedded from the source. -/

namespace FuzzyMatcher

/-- Banking stop-words stripped by `_clean_description` (line 326). -/
def banking_terms : List String :=
  ["debit", "credit", "purchase", "payment", "transfer", "withdrawal"]

/-- Embedding of `_clean_description` (lines 317-334): lowercase,
delete the banking terms, map every character outside `[a-z0-9\s]` to
a space, collapse whitespace runs to single spaces, strip. -/
def collapseWsL : List Char → List Char
  | [] => []
  | [c] => [if isPyWs c then ' ' else c]
  | c :: d :: cs =>
    if isPyWs c && isPyWs d then collapseWsL (d :: cs)
    else (if isPyWs c then ' ' else c) :: collapseWsL (d :: cs)

/-- The character filter of `_clean_description`: characters outside
`[a-z0-9\s]` become spaces (applied after lowercasing). -/
def nonAlnumToSpace (c : Char) : Char :=
  if c.isLower || c.isDigit || isPyWs c then c else ' '

/-- Embedding of `_clean_description`. -/
def clean_description (description : String) : String :=
  if description = "" then ""
  else
    let cleaned := lowerL description.toList
    let cleaned := banking_terms.foldl
      (fun acc t => replaceAllL t.toList [] acc) cleaned
    String.mk (stripL (collapseWsL (cleaned.map nonAlnumToSpace)))

/-- Embedding of `_calculate_similarity` (lines 336-341): 0 for an
empty operand, otherwise the external sequence-matcher value. -/
def calculate_similarity (sim : String → String → ℚ) (text1 text2 : String) : ℚ :=
  if text1 = "" || text2 = "" then 0 else sim text1 text2

/-- The relative amount difference computed by `is_match` (line 272):
`abs(stmt_amount - business_amount) / max(stmt_amount, business_amount)`
with `stmt_amount = abs(statement amount)`. -/
def amountDiffPct (s : StmtTrans) (b : BizTrans) : ℚ :=
  abs (|s.amount| - b.amount) / max |s.amount| b.amount

/-- The text score of `is_match` (lines 288-301): the larger of the
description similarity and (when a vendor name is present) the
vendor-name similarity, on cleaned strings. -/
def textScore (sim : String → String → ℚ) (s : StmtTrans) (b : BizTrans) : ℚ :=
  let stmt_desc := clean_description s.description
  let business_desc := clean_description b.description
  let vendor_similarity :=
    if b.vendor_name ≠ "" then
      calculate_similarity sim stmt_desc (clean_description b.vendor_name)
    else 0
  let desc_similarity := calculate_similarity sim stmt_desc business_desc
  max desc_similarity vendor_similarity

/-- Embedding of `FuzzyMatcher.is_match` (lines 264-315).  The
`max(stmt_amount, business_amount) = 0` guard embeds the
`ZeroDivisionError` path of the source, which the surrounding `except`
clause turns into `(False, 0.0)`. -/
def is_match (similarity_threshold : ℚ) (sim : String → String → ℚ)
    (statement_trans : StmtTrans) (business_trans : BizTrans) : Bool × ℚ :=
  if max |statement_trans.amount| business_trans.amount = 0 then (false, 0)
  else
    let amount_diff_pct := amountDiffPct statement_trans business_trans
    if 1/20 < amount_diff_pct then (false, 0)
    else
      match statement_trans.transaction_date, business_trans.transaction_date with
      | some stmt_date, some business_date =>
        let date_diff := (stmt_date - business_date).natAbs
        if 7 < date_diff then (false, 0)
        else
          let text_similarity := textScore sim statement_trans business_trans
          let amount_score := 1 - amount_diff_pct
          let date_score := max 0 (1 - (date_diff : ℚ) / 7)
          let confidence := amount_score * (4/10) + date_score * (2/10) +
            text_similarity * (4/10)
          (decide (similarity_threshold ≤ confidence), confidence)
      | _, _ => (false, 0)

/-- The default `similarity_threshold` of `FuzzyMatcher.__init__`. -/
def default_threshold : ℚ := 8/10

end FuzzyMatcher

/-- The fuzzy confidence formula as the spec states it:
`0.4×amount_score + 0.2×date_score + 0.4×text_score` with
`amount_score = 1 − relative_amount_diff` and
`date_score = max(0, 1 − days_diff/7)`. -/
def fuzzyConfidence (amount_diff_pct : ℚ) (days_diff : Nat) (text_score : ℚ) : ℚ :=
  (4/10) * (1 - amount_diff_pct) +
  (2/10) * max 0 (1 - (days_diff : ℚ) / 7) +
  (4/10) * text_score

/-! ### Transaction store

Embedding of the database rows touched by
`TransactionManager.create_reconciliation` and its two update helpers
(`src/core/supabase_manager.py`, lines 255-302).  Status columns are
association lists keyed by transaction id; an SQL
`UPDATE ... WHERE id = k` updates exactly the rows whose key is `k`
and is a no-op when no such row exists.  Whether each kind of write
succeeds is a boolean in `WriteFlags`; a raised exception is modelled
as a `some message` error component returned next to the state the
write sequence has produced so far (Python state mutations performed
before the raise persist). -/

/-- Update every binding of key `k` to `v` (SQL `UPDATE ... WHERE id = k`). -/
def setAssoc {α : Type} (k : Nat) (v : α) (l : List (Nat × α)) : List (Nat × α) :=
  l.map (fun p => if p.1 = k then (k, v) else p)

/-- First binding of key `k` (SQL `SELECT ... WHERE id = k LIMIT 1`). -/
def lookupAssoc {α : Type} (l : List (Nat × α)) (k : Nat) : Option α :=
  match l.find? (fun p => p.1 = k) with
  | some p => some p.2
  | none => none

/-- The database state visible to the reconciliation engine. -/
structure Store where
  reconciliation_records : List ReconRecord
  outgoing_status : List (Nat × String)
  incoming_status : List (Nat × String)
  statement_matched : List (Nat × Bool)
deriving DecidableEq, Repr

/-- Success/failure of each kind of database write during a run. -/
structure WriteFlags where
  insertOk : Bool
  updateBizOk : Bool
  updateStmtOk : Bool
deriving DecidableEq, Repr

namespace TransactionManager

/-- Embedding of `update_transaction_reconciliation_status`
(lines 285-293): set the `reconciliation_status` column of the given
table's row, re-raising any failure with its own message. -/
def update_transaction_reconciliation_status (ok : Bool) (table : String)
    (transaction_id : Nat) (status : String) (st : Store) : Store × Option String :=
  if ok then
    if table = "outgoing_transactions" then
      ({ st with outgoing_status := setAssoc transaction_id status st.outgoing_status },
       none)
    else if table = "incoming_transactions" then
      ({ st with incoming_status := setAssoc transaction_id status st.incoming_status },
       none)
    else (st, none)
  else (st, some "Error updating transaction reconciliation status")

/-- Embedding of `update_statement_transaction_match` (lines 295-302). -/
def update_statement_transaction_match (ok : Bool) (transaction_id : Nat)
    (is_matched : Bool) (st : Store) : Store × Option String :=
  if ok then
    ({ st with statement_matched := setAssoc transaction_id is_matched st.statement_matched },
     none)
  else (st, some "Error updating statement transaction match")

/-- Embedding of `create_reconciliation` (lines 255-283): insert the
record, flip the business transaction status, flip the statement match
flag — in that order; an exception anywhere is re-raised with the
`Error creating reconciliation` message while keeping the state writes
already performed. -/
def create_reconciliation (flags : WriteFlags) (rd : ReconRecord) (st : Store) :
    Store × Option String :=
  if !flags.insertOk then (st, some "Error creating reconciliation")
  else
    let st1 := { st with reconciliation_records := st.reconciliation_records ++ [rd] }
    let step2 :=
      if rd.business_transaction_type = "outgoing" then
        update_transaction_reconciliation_status flags.updateBizOk
          "outgoing_transactions" rd.business_transaction_id "matched" st1
      else if rd.business_transaction_type = "incoming" then
        update_transaction_reconciliation_status flags.updateBizOk
          "incoming_transactions" rd.business_transaction_id "matched" st1
      else (st1, none)
    match step2 with
    | (st2, some e) => (st2, some ("Error creating reconciliation: " ++ e))
    | (st2, none) =>
      match update_statement_transaction_match flags.updateStmtOk
          rd.statement_transaction_id true st2 with
      | (st3, some e) => (st3, some ("Error creating reconciliation: " ++ e))
      | (st3, none) => (st3, none)

end TransactionManager

/-! ### Reconciliation engine

Embedding of `ReconciliationEngine`
(`src/ai_models/reconciliation_engine.py`, lines 18-204), on the
`date_range = None` path of `run_reconciliation`.  The engine receives
the unreconciled statement/outgoing/incoming lists (the result of the
store's unreconciled query) as inputs. -/

namespace ReconciliationEngine

/-- Engine-local state threaded through `_run_exact_matching`: the
`matched_statements` and `matched_business` id sets, the accumulated
`exact_matches` list, the database state, and the warning lines
printed by `_create_reconciliation_record`. -/
structure EngineSt where
  matched_statements : List Nat
  matched_business : List Nat
  exact_matches : List MatchRec
  store : Store
  warnings : List String
deriving DecidableEq, Repr

/-- Embedding of `_create_reconciliation_record` (lines 154-169):
build the record row, attempt `create_reconciliation`, and turn any
raised error into a printed warning — the caller never sees a
failure. -/
def create_reconciliation_record (flags : WriteFlags) (m : MatchRec) (st : Store) :
    Store × List String :=
  match TransactionManager.create_reconciliation flags (toReconRecord m) st with
  | (st2, none) => (st2, [])
  | (st2, some e) =>
    (st2, ["Warning: Could not create reconciliation record: " ++ e])

/-- The inner loop of `_run_exact_matching` over one business pool:
skip already-matched business transactions and return the first one
`ExactMatcher.is_match` accepts (the `break` of the source). -/
def findFirstBiz (matched_business : List Nat) (stmt : StmtTrans)
    (business_type : String) : List BizTrans → Option BizTrans
  | [] => none
  | b :: bs =>
    if b.id ∈ matched_business then findFirstBiz matched_business stmt business_type bs
    else if ExactMatcher.is_match stmt b business_type then some b
    else findFirstBiz matched_business stmt business_type bs

/-- One pass of `_run_exact_matching` over the statement list for one
business pool (`outgoing` or `incoming`), lines 79-126: skip
already-matched statements, take the first acceptable business
transaction, record the match with confidence 1.0, add both ids to the
matched sets, and create the reconciliation record. -/
def exactPass (flags : WriteFlags) (business_type : String) (pool : List BizTrans) :
    List StmtTrans → EngineSt → EngineSt
  | [], st => st
  | stmt :: rest, st =>
    if stmt.id ∈ st.matched_statements then exactPass flags business_type pool rest st
    else
      match findFirstBiz st.matched_business stmt business_type pool with
      | none => exactPass flags business_type pool rest st
      | some b =>
        let m : MatchRec :=
          { statement_transaction := stmt
            business_transaction := b
            business_transaction_type := business_type
            confidence_score := 1
            match_type := "exact" }
        let created := create_reconciliation_record flags m st.store
        exactPass flags business_type pool rest
          { matched_statements := stmt.id :: st.matched_statements
            matched_business := b.id :: st.matched_business
            exact_matches := st.exact_matches ++ [m]
            store := created.1
            warnings := st.warnings ++ created.2 }

/-- Embedding of `_run_exact_matching` (lines 72-126): the outgoing
pass followed by the incoming pass, sharing the matched-id sets. -/
def run_exact_matching (flags : WriteFlags) (statements : List StmtTrans)
    (outgoing incoming : List BizTrans) (st : EngineSt) : EngineSt :=
  exactPass flags "incoming" incoming statements
    (exactPass flags "outgoing" outgoing statements st)

/-- Embedding of `_run_fuzzy_matching` (lines 128-140): the source
computes the lists of still-available transactions and then contains
no further executable logic, so the pass leaves results and state
unchanged. -/
def run_fuzzy_matching (st : EngineSt) : EngineSt := st

/-- Embedding of `_run_amount_matching` (lines 142-146): `pass`. -/
def run_amount_matching (st : EngineSt) : EngineSt := st

/-- Embedding of `_run_date_matching` (lines 148-152): `pass`. -/
def run_date_matching (st : EngineSt) : EngineSt := st

/-- The `reconciliation_summary` dictionary built by
`_generate_summary` (lines 188-204). -/
structure Summary where
  total_matches_found : Nat
  exact_matches : Nat
  fuzzy_matches : Nat
  amount_matches : Nat
  date_matches : Nat
  unmatched_statements : Nat
  unmatched_business_transactions : Nat
  reconciliation_rate : ℚ
deriving DecidableEq, Repr

/-- The `results` dictionary of `run_reconciliation` (lines 42-50). -/
structure ReconResults where
  exact_matches : List MatchRec
  fuzzy_matches : List MatchRec
  amount_matches : List MatchRec
  date_matches : List MatchRec
  unmatched_statements : List StmtTrans
  unmatched_business : List BizTrans
deriving DecidableEq, Repr

/-- Embedding of `_generate_summary` (lines 188-204), including the
`if total_matches > 0 else 0` division guard of line 203. -/
def generate_summary (r : ReconResults) : Summary :=
  let total_matches := r.exact_matches.length + r.fuzzy_matches.length +
    r.amount_matches.length + r.date_matches.length
  { total_matches_found := total_matches
    exact_matches := r.exact_matches.length
    fuzzy_matches := r.fuzzy_matches.length
    amount_matches := r.amount_matches.length
    date_matches := r.date_matches.length
    unmatched_statements := r.unmatched_statements.length
    unmatched_business_transactions := r.unmatched_business.length
    reconciliation_rate :=
      if 0 < total_matches then
        (total_matches : ℚ) / ((total_matches : ℚ) + (r.unmatched_statements.length : ℚ))
      else 0 }

/-- Everything `run_reconciliation` leaves behind: the results
dictionary with its summary, the database state, and the warnings
printed along the way. -/
structure RunOutput where
  results : ReconResults
  summary : Summary
  store : Store
  warnings : List String
deriving DecidableEq, Repr

/-- Embedding of `run_reconciliation` (lines 31-70) on the
`date_range = None` path: run the four matcher passes in order on the
given unreconciled transactions, then generate the summary.  The
fuzzy/amount/date passes of the source contain no executable matching
logic, so only the exact pass produces matches. -/
def run_reconciliation (flags : WriteFlags) (statements : List StmtTrans)
    (outgoing incoming : List BizTrans) (store0 : Store) : RunOutput :=
  let st0 : EngineSt :=
    { matched_statements := []
      matched_business := []
      exact_matches := []
      store := store0
      warnings := [] }
  let st1 := run_exact_matching flags statements outgoing incoming st0
  let st2 := run_date_matching (run_amount_matching (run_fuzzy_matching st1))
  let results : ReconResults :=
    { exact_matches := st2.exact_matches
      fuzzy_matches := []
      amount_matches := []
      date_matches := []
      unmatched_statements := []
      unmatched_business := [] }
  { results := results
    summary := generate_summary results
    store := st2.store
    warnings := st2.warnings }

/-- Engine-state invariant used in the at-most-one-match proofs: the
statement ids and the business ids of the accumulated matches are
duplicate-free, and each is registered in the corresponding
matched-id set. -/
def MatchedInv (st : EngineSt) : Prop :=
  (st.exact_matches.map fun m => m.statement_transaction.id).Nodup ∧
  (st.exact_matches.map fun m => m.business_transaction.id).Nodup ∧
  ∀ m ∈ st.exact_matches,
    m.statement_transaction.id ∈ st.matched_statements ∧
    m.business_transaction.id ∈ st.matched_business

/-- Engine-state invariant tying the store to the match list: the
reconciliation-record rows are the initial rows followed by one row
per accumulated match (when record inserts succeed; none otherwise). -/
def RecordsInv (flags : WriteFlags) (init : List ReconRecord) (st : EngineSt) : Prop :=
  st.store.reconciliation_records =
    init ++ (if flags.insertOk then st.exact_matches.map toReconRecord else [])

end ReconciliationEngine

/-! ### Text extractor dispatch

Embedding of `DocumentProcessor._extract_text_advanced`
(`src/ai_models/document_processor.py`, lines 179-194).  The three
supported-format extractors perform I/O and OCR; they are taken as
parameters, since the claim under test concerns only the dispatch and
the unsupported-extension branch. -/

namespace DocumentProcessor

/-- An extraction result dictionary: `{'text': ..., 'confidence': ...,
'method': ...}`. -/
structure ExtractionResult where
  text : String
  confidence : ℚ
  method : String
deriving DecidableEq, Repr

/-- The last path component (the part after the final `/`). -/
def lastComponent (cs : List Char) : List Char :=
  (cs.reverse.takeWhile (fun c => c ≠ '/')).reverse

/-- Embedding of `pathlib.Path(p).suffix`: the final component's text
from its last dot, or empty when the dot is absent, leading (hidden
file) or trailing. -/
def pathSuffix (p : String) : String :=
  let name := lastComponent p.toList
  let rev := name.reverse
  let pre := rev.takeWhile (fun c => c ≠ '.')
  if pre.length = rev.length then ""
  else if pre.length = 0 then ""
  else if pre.length + 1 = rev.length then ""
  else String.mk ('.' :: pre.reverse)

/-- `self.image_extensions` (source line 91). -/
def image_extensions : List String :=
  [".jpg", ".jpeg", ".png", ".bmp", ".tiff", ".tif"]

/-- `self.pdf_extensions` (source line 92). -/
def pdf_extensions : List String := [".pdf"]

/-- `self.text_extensions` (source line 93). -/
def text_extensions : List String := [".txt", ".csv", ".json"]

/-- Embedding of `_extract_text_advanced`: dispatch on the lowercased
suffix, delegating supported formats to the given extractors and
producing the bracketed unsupported-type result otherwise. -/
def extract_text_advanced
    (extractImage extractPdf extractTextFile : String → ExtractionResult)
    (file_path : String) : ExtractionResult :=
  let extension := lowerStr (pathSuffix file_path)
  if extension ∈ image_extensions then extractImage file_path
  else if extension ∈ pdf_extensions then extractPdf file_path
  else if extension ∈ text_extensions then extractTextFile file_path
  else
    { text := "[Unsupported file type: " ++ extension ++ "]"
      confidence := 0
      method := "unsupported" }

end DocumentProcessor

end VendorPay

/-! ## Theorems -/

namespace VendorPay

/-- Appending one element keeps a list duplicate-free exactly when the
element is new. -/
theorem nodup_append_singleton {α : Type} {l : List α} {a : α} :
    (l ++ [a]).Nodup ↔ l.Nodup ∧ a ∉ l := by
  induction l with
  | nil => simp
  | cons x xs ih =>
    simp only [List.cons_append, List.nodup_cons, ih, List.mem_append,
      List.mem_singleton, List.mem_cons]
    tauto

/-- C9: for every file path whose (lowercased) extension is outside the
supported image, PDF, and text extension sets, `_extract_text_advanced`
returns — without raising — a result with confidence 0, method
`unsupported`, and a text payload that begins with the `[` failure
sentinel; this holds for every behaviour of the three supported-format
extractors. -/
theorem c9_unsupported_extension_result
    (extractImage extractPdf extractTextFile : String → DocumentProcessor.ExtractionResult)
    (p : String)
    (h1 : lowerStr (DocumentProcessor.pathSuffix p) ∉ DocumentProcessor.image_extensions)
    (h2 : lowerStr (DocumentProcessor.pathSuffix p) ∉ DocumentProcessor.pdf_extensions)
    (h3 : lowerStr (DocumentProcessor.pathSuffix p) ∉ DocumentProcessor.text_extensions) :
    (DocumentProcessor.extract_text_advanced extractImage extractPdf extractTextFile p).confidence = 0 ∧
    (DocumentProcessor.extract_text_advanced extractImage extractPdf extractTextFile p).method = "unsupported" ∧
    ∃ rest : String,
      (DocumentProcessor.extract_text_advanced extractImage extractPdf extractTextFile p).text =
        "[" ++ rest := by
  refine ⟨?_, ?_, ⟨"Unsupported file type: " ++ lowerStr (DocumentProcessor.pathSuffix p) ++ "]", ?_⟩⟩ <;>
    simp only [DocumentProcessor.extract_text_advanced, h1, h2, h3, if_false,
      if_neg, not_false_eq_true]
  have hlit : ("[Unsupported file type: " : String) = "[" ++ "Unsupported file type: " := by
    decide
  rw [hlit]
  simp only [String.append_assoc]

/-- C9 witness: a `.docx` path takes the unsupported branch. -/
theorem c9_witness :
    (DocumentProcessor.extract_text_advanced (fun _ => ⟨"", 0, ""⟩) (fun _ => ⟨"", 0, ""⟩)
      (fun _ => ⟨"", 0, ""⟩) "reports/summary.docx").confidence = 0 ∧
    (DocumentProcessor.extract_text_advanced (fun _ => ⟨"", 0, ""⟩) (fun _ => ⟨"", 0, ""⟩)
      (fun _ => ⟨"", 0, ""⟩) "reports/summary.docx").method = "unsupported" ∧
    ∃ rest : String,
      (DocumentProcessor.extract_text_advanced (fun _ => ⟨"", 0, ""⟩) (fun _ => ⟨"", 0, ""⟩)
        (fun _ => ⟨"", 0, ""⟩) "reports/summary.docx").text = "[" ++ rest :=
  c9_unsupported_extension_result _ _ _ "reports/summary.docx"
    (by decide) (by decide) (by decide)

/-- C10: for every text and every document type outside the five
field-bearing classes (in particular `unknown` and
`general_document`), `_extract_structured_fields` returns the empty
mapping. -/
theorem c10_structured_fields_empty (text doc_type : String)
    (h : doc_type ∉ ["invoice", "bank_statement", "check", "sales_report", "receipt"]) :
    DocumentProcessor.extract_structured_fields text doc_type = [] := by
  simp only [List.mem_cons, List.mem_singleton, not_or] at h
  obtain ⟨h1, h2, h3, h4, h5, -⟩ := h
  simp [DocumentProcessor.extract_structured_fields, h1, h2, h3, h4, h5]

/-- C10 witness: the `unknown` type extracts nothing. -/
theorem c10_witness :
    DocumentProcessor.extract_structured_fields "Invoice #: 1 due date total" "unknown" = [] :=
  c10_structured_fields_empty _ "unknown" (by decide)

/-- C6: for every results dictionary, the summary's reconciliation
rate equals `total_matches / (total_matches + unmatched_statements)`
(as exact rationals), lies in `[0, 1]`, is 0 when there are no
matches, and the guarded division only runs with a positive
denominator. -/
theorem c6_reconciliation_rate (r : ReconciliationEngine.ReconResults) :
    (ReconciliationEngine.generate_summary r).reconciliation_rate =
      ((ReconciliationEngine.generate_summary r).total_matches_found : ℚ) /
        (((ReconciliationEngine.generate_summary r).total_matches_found : ℚ) +
          ((ReconciliationEngine.generate_summary r).unmatched_statements : ℚ)) ∧
    0 ≤ (ReconciliationEngine.generate_summary r).reconciliation_rate ∧
    (ReconciliationEngine.generate_summary r).reconciliation_rate ≤ 1 ∧
    ((ReconciliationEngine.generate_summary r).total_matches_found = 0 →
      (ReconciliationEngine.generate_summary r).reconciliation_rate = 0) ∧
    (0 < (ReconciliationEngine.generate_summary r).total_matches_found →
      0 < ((ReconciliationEngine.generate_summary r).total_matches_found : ℚ) +
        ((ReconciliationEngine.generate_summary r).unmatched_statements : ℚ)) := by
  simp only [ReconciliationEngine.generate_summary]
  set tm : Nat := r.exact_matches.length + r.fuzzy_matches.length +
    r.amount_matches.length + r.date_matches.length with htm
  set us : Nat := r.unmatched_statements.length with hus
  by_cases h : 0 < tm
  · have hden : (0 : ℚ) < (tm : ℚ) + (us : ℚ) := by
      have h1 : (1 : ℚ) ≤ (tm : ℚ) := by exact_mod_cast h
      have h2 : (0 : ℚ) ≤ (us : ℚ) := by positivity
      linarith
    refine ⟨by simp [h], ?_, ?_, ?_, ?_⟩
    · simp only [if_pos h]
      positivity
    · simp only [if_pos h]
      rw [div_le_one hden]
      have h2 : (0 : ℚ) ≤ (us : ℚ) := by positivity
      linarith
    · intro h0
      omega
    · intro _
      exact hden
  · have h0 : tm = 0 := by omega
    refine ⟨?_, ?_, ?_, ?_, ?_⟩ <;> simp [h0]

/-- C3: the classifier agrees everywhere with the spec-ordered
first-class-reaching-2 description (`unknown` guard for empty or
sentinel-prefixed text, fixed priority order, `general_document`
fallback); in particular, whenever a non-empty, non-sentinel text
meets the invoice 2-keyword threshold, the classifier answers
`invoice` no matter how high the later classes score. -/
theorem c3_classifier_first_class_wins :
    (∀ text, DocumentProcessor.classify_document_advanced text =
      DocumentProcessor.classifySpec text) ∧
    (∀ text, text.data ≠ [] →
      startsWithL ['['] text.data = false →
      2 ≤ DocumentProcessor.keywordScore DocumentProcessor.invoice_keywords
        (lowerL text.data) →
      DocumentProcessor.classify_document_advanced text = "invoice") := by
  constructor
  · intro text
    by_cases hg : text.data = [] ∨ startsWithL ['['] text.data = true
    · simp [DocumentProcessor.classify_document_advanced,
        DocumentProcessor.classifySpec, hg]
    · by_cases h1 : 2 ≤ DocumentProcessor.keywordScore
        DocumentProcessor.invoice_keywords (lowerL text.data)
      case pos =>
        simp [DocumentProcessor.classify_document_advanced,
          DocumentProcessor.classifySpec, DocumentProcessor.classOrder,
          List.find?, hg, h1]
      case neg =>
      by_cases h2 : 2 ≤ DocumentProcessor.keywordScore
        DocumentProcessor.bank_keywords (lowerL text.data)
      case pos =>
        simp [DocumentProcessor.classify_document_advanced,
          DocumentProcessor.classifySpec, DocumentProcessor.classOrder,
          List.find?, hg, h1, h2]
      case neg =>
      by_cases h3 : 2 ≤ DocumentProcessor.keywordScore
        DocumentProcessor.check_keywords (lowerL text.data)
      case pos =>
        simp [DocumentProcessor.classify_document_advanced,
          DocumentProcessor.classifySpec, DocumentProcessor.classOrder,
          List.find?, hg, h1, h2, h3]
      case neg =>
      by_cases h4 : 2 ≤ DocumentProcessor.keywordScore
        DocumentProcessor.sales_keywords (lowerL text.data)
      case pos =>
        simp [DocumentProcessor.classify_document_advanced,
          DocumentProcessor.classifySpec, DocumentProcessor.classOrder,
          List.find?, hg, h1, h2, h3, h4]
      case neg =>
      by_cases h5 : 2 ≤ DocumentProcessor.keywordScore
        DocumentProcessor.receipt_keywords (lowerL text.data)
      case pos =>
        simp [DocumentProcessor.classify_document_advanced,
          DocumentProcessor.classifySpec, DocumentProcessor.classOrder,
          List.find?, hg, h1, h2, h3, h4, h5]
      case neg =>
        simp [DocumentProcessor.classify_document_advanced,
          DocumentProcessor.classifySpec, DocumentProcessor.classOrder,
          List.find?, hg, h1, h2, h3, h4, h5]
  · intro text hne hsent h1
    simp [DocumentProcessor.classify_document_advanced, hne, hsent, h1]

/-- C3 witness: a text that meets the invoice threshold with count 2
while scoring 5 bank-statement keywords still classifies as
`invoice`. -/
theorem c3_witness :
    DocumentProcessor.classify_document_advanced
      "invoice due date balance deposit debit credit account" = "invoice" ∧
    2 < DocumentProcessor.keywordScore DocumentProcessor.bank_keywords
      (lowerL "invoice due date balance deposit debit credit account".toList) :=
  ⟨c3_classifier_first_class_wins.2
      "invoice due date balance deposit debit credit account"
      (by decide) (by decide) (by decide),
    by decide⟩

/-- C8 counterexample: the claim quantifies over EVERY text containing
the three sample lines, but a text that contains them while beginning
with the `[` failure sentinel classifies as `unknown`, not `invoice`;
and a text with an earlier `invoice` token extracts a different
invoice number, because `re.search` keeps the first match. -/
theorem c8_counterexample :
    (containsL "Invoice #: INV-2024-001".toList
      "[x\nInvoice #: INV-2024-001\nTotal: $1,014.69\nDue Date: February 14, 2024".toList = true ∧
     containsL "Total: $1,014.69".toList
      "[x\nInvoice #: INV-2024-001\nTotal: $1,014.69\nDue Date: February 14, 2024".toList = true ∧
     containsL "Due Date: February 14, 2024".toList
      "[x\nInvoice #: INV-2024-001\nTotal: $1,014.69\nDue Date: February 14, 2024".toList = true ∧
     DocumentProcessor.classify_document_advanced
      "[x\nInvoice #: INV-2024-001\nTotal: $1,014.69\nDue Date: February 14, 2024" = "unknown") ∧
    (containsL "Invoice #: INV-2024-001".toList
      "invoice x\nInvoice #: INV-2024-001\nTotal: $1,014.69\nDue Date: February 14, 2024".toList = true ∧
     DocumentProcessor.classify_document_advanced
      "invoice x\nInvoice #: INV-2024-001\nTotal: $1,014.69\nDue Date: February 14, 2024" = "invoice" ∧
     List.lookup "invoice_number"
      (DocumentProcessor.extract_invoice_fields
        "invoice x\nInvoice #: INV-2024-001\nTotal: $1,014.69\nDue Date: February 14, 2024") =
      some "x") := by
  decide

/-- C8 (amended): the concrete end-to-end scenario — the text made of
the lines `Invoice #: INV-2024-001`, `Total: $1,014.69`,
`Due Date: February 14, 2024` classifies as `invoice`, and invoice
field extraction yields exactly
`invoice_number = INV-2024-001`, `due_date = February 14, 2024`,
`total_amount = 1,014.69` (also through the type dispatch). -/
theorem c8_invoice_scenario :
    DocumentProcessor.classify_document_advanced
      "Invoice #: INV-2024-001\nTotal: $1,014.69\nDue Date: February 14, 2024" = "invoice" ∧
    DocumentProcessor.extract_invoice_fields
      "Invoice #: INV-2024-001\nTotal: $1,014.69\nDue Date: February 14, 2024" =
      [("invoice_number", "INV-2024-001"), ("due_date", "February 14, 2024"),
       ("total_amount", "1,014.69")] ∧
    DocumentProcessor.extract_structured_fields
      "Invoice #: INV-2024-001\nTotal: $1,014.69\nDue Date: February 14, 2024" "invoice" =
      [("invoice_number", "INV-2024-001"), ("due_date", "February 14, 2024"),
       ("total_amount", "1,014.69")] := by
  decide

/-- Helper: every match accumulated by `exactPass` either was already
present or is a newly created exact match with confidence 1. -/
theorem exactPass_matches_subset (flags : WriteFlags) (bt : String)
    (pool : List BizTrans) :
    ∀ (ss : List StmtTrans) (st : ReconciliationEngine.EngineSt)
      (m : MatchRec),
      m ∈ (ReconciliationEngine.exactPass flags bt pool ss st).exact_matches →
      m ∈ st.exact_matches ∨
        (m.confidence_score = 1 ∧ m.match_type = "exact" ∧
          m.business_transaction_type = bt) := by
  intro ss
  induction ss with
  | nil =>
    intro st m hm
    exact Or.inl hm
  | cons s rest ih =>
    intro st m hm
    rw [ReconciliationEngine.exactPass] at hm
    by_cases hmem : s.id ∈ st.matched_statements
    · rw [if_pos hmem] at hm
      exact ih st m hm
    · rw [if_neg hmem] at hm
      rcases hfind : ReconciliationEngine.findFirstBiz st.matched_business s bt pool with
        _ | b
      · rw [hfind] at hm
        exact ih st m hm
      · rw [hfind] at hm
        rcases ih _ m hm with hold | hnew
        · simp only [List.mem_append, List.mem_singleton] at hold
          rcases hold with hold | rfl
          · exact Or.inl hold
          · exact Or.inr ⟨rfl, rfl, rfl⟩
        · exact Or.inr hnew

/-- C2: the exact matcher rejects every pair whose amount difference
(absolute statement amount vs. business amount) exceeds 0.01, whatever
the dates, descriptions or transaction types; every pair it accepts
has amount difference within 0.01, parseable dates at most 3 days
apart, a debit statement for the outgoing variant and a credit
statement for the incoming variant; and every exact match produced by
a reconciliation run carries confidence exactly 1. -/
theorem c2_exact_matcher_tolerances :
    (∀ (s : StmtTrans) (b : BizTrans) (bt : String),
      1/100 < abs (|s.amount| - b.amount) →
      ExactMatcher.is_match s b bt = false) ∧
    (∀ (s : StmtTrans) (b : BizTrans) (bt : String),
      ExactMatcher.is_match s b bt = true →
      abs (|s.amount| - b.amount) ≤ 1/100 ∧
      (∃ sd bd, s.transaction_date = some sd ∧ b.transaction_date = some bd ∧
        (sd - bd).natAbs ≤ 3) ∧
      (bt = "outgoing" → lowerStr s.transaction_type = "debit") ∧
      (bt = "incoming" → lowerStr s.transaction_type = "credit")) ∧
    (∀ (flags : WriteFlags) (statements : List StmtTrans)
      (outgoing incoming : List BizTrans) (store0 : Store) (m : MatchRec),
      m ∈ (ReconciliationEngine.run_reconciliation flags statements outgoing
        incoming store0).results.exact_matches →
      m.confidence_score = 1) := by
  refine ⟨?_, ?_, ?_⟩
  · intro s b bt ha
    simp only [ExactMatcher.is_match]
    rw [if_pos ha]
  · intro s b bt h
    simp only [ExactMatcher.is_match] at h
    by_cases ha : 1/100 < abs (|s.amount| - b.amount)
    · rw [if_pos ha] at h
      cases h
    · rw [if_neg ha] at h
      rcases hsd : s.transaction_date with _ | sd
      · rw [hsd] at h
        simp at h
      · rcases hbd : b.transaction_date with _ | bd
        · rw [hsd, hbd] at h
          simp at h
        · rw [hsd, hbd] at h
          simp only [] at h
          by_cases hdd : 3 < (sd - bd).natAbs
          · rw [if_pos hdd] at h
            cases h
          · rw [if_neg hdd] at h
            refine ⟨le_of_not_lt ha, ⟨sd, bd, rfl, rfl, le_of_not_lt hdd⟩, ?_, ?_⟩
            · intro hbt
              subst hbt
              by_contra hty
              simp [hty] at h
            · intro hbt
              subst hbt
              by_contra hty
              simp [hty] at h
  · intro flags statements outgoing incoming store0 m hm
    have hrun : (ReconciliationEngine.run_reconciliation flags statements outgoing
        incoming store0).results.exact_matches =
        (ReconciliationEngine.exactPass flags "incoming" incoming statements
          (ReconciliationEngine.exactPass flags "outgoing" outgoing statements
            { matched_statements := []
              matched_business := []
              exact_matches := []
              store := store0
              warnings := [] })).exact_matches := rfl
    rw [hrun] at hm
    rcases exactPass_matches_subset flags "incoming" incoming statements _ m hm with
      hin | hprops
    · rcases exactPass_matches_subset flags "outgoing" outgoing statements _ m hin with
        hin2 | hprops2
      · simp at hin2
      · exact hprops2.1
    · exact hprops.1

/-- C2 witness: a pair with amount difference 2 is rejected, and an
accepted concrete pair satisfies every listed acceptance condition. -/
theorem c2_witness :
    ExactMatcher.is_match ⟨0, 5, some 0, "debit", ""⟩ ⟨0, 7, some 0, "", ""⟩
      "outgoing" = false ∧
    (abs (|((-425 : ℚ))| - 425) ≤ 1/100 ∧
      (∃ sd bd, (some 100 : Option ℤ) = some sd ∧ (some 99 : Option ℤ) = some bd ∧
        (sd - bd).natAbs ≤ 3) ∧
      ("outgoing" = "outgoing" → lowerStr "Debit" = "debit") ∧
      ("outgoing" = "incoming" → lowerStr "Debit" = "credit")) :=
  ⟨c2_exact_matcher_tolerances.1 ⟨0, 5, some 0, "debit", ""⟩ ⟨0, 7, some 0, "", ""⟩
      "outgoing" (by norm_num),
    c2_exact_matcher_tolerances.2.1 ⟨3, -425, some 100, "Debit", "d"⟩
      ⟨4, 425, some 99, "d", ""⟩ "outgoing"
      (by norm_num [ExactMatcher.is_match, lowerStr, lowerL]; decide)⟩

/-- C4: inside the fuzzy scoring region (non-degenerate amounts,
relative amount difference at most 5%, parseable dates at most 7 days
apart), the confidence returned by `FuzzyMatcher.is_match` equals the
spec formula `0.4×amount_score + 0.2×date_score + 0.4×text_score`; and
that formula is monotonically non-increasing in the amount difference
and the date difference and non-decreasing in the text similarity
(equivalently, non-increasing in the description dissimilarity), the
other two arguments held fixed. -/
theorem c4_fuzzy_confidence_formula_monotone :
    (∀ (threshold : ℚ) (sim : String → String → ℚ) (s : StmtTrans) (b : BizTrans)
      (sd bd : ℤ),
      s.transaction_date = some sd → b.transaction_date = some bd →
      max |s.amount| b.amount ≠ 0 →
      FuzzyMatcher.amountDiffPct s b ≤ 1/20 →
      (sd - bd).natAbs ≤ 7 →
      (FuzzyMatcher.is_match threshold sim s b).2 =
        fuzzyConfidence (FuzzyMatcher.amountDiffPct s b) ((sd - bd).natAbs)
          (FuzzyMatcher.textScore sim s b)) ∧
    (∀ p₁ p₂ : ℚ, ∀ d : Nat, ∀ t : ℚ, p₁ ≤ p₂ →
      fuzzyConfidence p₂ d t ≤ fuzzyConfidence p₁ d t) ∧
    (∀ p : ℚ, ∀ d₁ d₂ : Nat, ∀ t : ℚ, d₁ ≤ d₂ →
      fuzzyConfidence p d₂ t ≤ fuzzyConfidence p d₁ t) ∧
    (∀ p : ℚ, ∀ d : Nat, ∀ t₁ t₂ : ℚ, t₁ ≤ t₂ →
      fuzzyConfidence p d t₁ ≤ fuzzyConfidence p d t₂) := by
  refine ⟨?_, ?_, ?_, ?_⟩
  · intro threshold sim s b sd bd hs hb hmax hpct hdd
    simp only [FuzzyMatcher.is_match]
    rw [if_neg hmax, if_neg (not_lt.2 hpct), hs, hb]
    simp only []
    rw [if_neg (not_lt.2 hdd)]
    simp only [fuzzyConfidence]
    ring
  · intro p₁ p₂ d t h
    simp only [fuzzyConfidence]
    linarith
  · intro p d₁ d₂ t h
    simp only [fuzzyConfidence]
    have hc : (d₁ : ℚ) ≤ (d₂ : ℚ) := by exact_mod_cast h
    have hmax : max 0 (1 - (d₂ : ℚ)/7) ≤ max 0 (1 - (d₁ : ℚ)/7) :=
      max_le_max (le_refl 0) (by linarith)
    linarith
  · intro p d t₁ t₂ h
    simp only [fuzzyConfidence]
    linarith

/-- C4 witness: the formula part and each monotonicity direction
evaluated at concrete points. -/
theorem c4_witness :
    (FuzzyMatcher.is_match (8/10) (fun _ _ => 1/2)
        ⟨0, -100, some 3, "debit", ""⟩ ⟨0, 100, some 0, "", ""⟩).2 =
      fuzzyConfidence
        (FuzzyMatcher.amountDiffPct ⟨0, -100, some 3, "debit", ""⟩ ⟨0, 100, some 0, "", ""⟩)
        (((3 : ℤ) - 0).natAbs)
        (FuzzyMatcher.textScore (fun _ _ => 1/2)
          ⟨0, -100, some 3, "debit", ""⟩ ⟨0, 100, some 0, "", ""⟩) ∧
    fuzzyConfidence (1/20) 3 (1/2) ≤ fuzzyConfidence 0 3 (1/2) ∧
    fuzzyConfidence (1/20) 7 (1/2) ≤ fuzzyConfidence (1/20) 3 (1/2) ∧
    fuzzyConfidence (1/20) 3 0 ≤ fuzzyConfidence (1/20) 3 (1/2) :=
  ⟨c4_fuzzy_confidence_formula_monotone.1 (8/10) (fun _ _ => 1/2)
      ⟨0, -100, some 3, "debit", ""⟩ ⟨0, 100, some 0, "", ""⟩ 3 0 rfl rfl
      (by norm_num) (by norm_num [FuzzyMatcher.amountDiffPct]) (by norm_num),
    c4_fuzzy_confidence_formula_monotone.2.1 0 (1/20) 3 (1/2) (by norm_num),
    c4_fuzzy_confidence_formula_monotone.2.2.1 (1/20) 3 7 (1/2) (by norm_num),
    c4_fuzzy_confidence_formula_monotone.2.2.2 (1/20) 3 0 (1/2) (by norm_num)⟩

/-- C5: a statement/business pair dated 5 days apart with a 3%
relative amount difference is accepted by the fuzzy matcher at the
default 0.8 threshold when its text similarity is 0.9 (confidence
1409/1750 ≈ 0.805), and rejected when its text similarity is 0
(confidence 779/1750 ≈ 0.445 < 0.8). -/
theorem c5_fuzzy_scenario (sim : String → String → ℚ) (s : StmtTrans) (b : BizTrans)
    (sd bd : ℤ)
    (hs : s.transaction_date = some sd) (hb : b.transaction_date = some bd)
    (hd : (sd - bd).natAbs = 5)
    (hp : FuzzyMatcher.amountDiffPct s b = 3/100) :
    (FuzzyMatcher.textScore sim s b = 9/10 →
      FuzzyMatcher.is_match FuzzyMatcher.default_threshold sim s b = (true, 1409/1750) ∧
      FuzzyMatcher.default_threshold ≤ 1409/1750) ∧
    (FuzzyMatcher.textScore sim s b = 0 →
      FuzzyMatcher.is_match FuzzyMatcher.default_threshold sim s b = (false, 779/1750) ∧
      (779/1750 : ℚ) < FuzzyMatcher.default_threshold) := by
  have hmax : max |s.amount| b.amount ≠ 0 := by
    intro h0
    rw [FuzzyMatcher.amountDiffPct, h0, div_zero] at hp
    norm_num at hp
  have hmaxq : max (0 : ℚ) (1 - (5 : ℚ)/7) = 2/7 := by
    rw [show (1 - (5 : ℚ)/7) = 2/7 by norm_num]
    exact max_eq_right (by norm_num)
  constructor
  · intro hts
    refine ⟨?_, by norm_num [FuzzyMatcher.default_threshold]⟩
    simp only [FuzzyMatcher.is_match]
    rw [if_neg hmax, hp, if_neg (by norm_num : ¬(1/20 : ℚ) < 3/100), hs, hb]
    simp only []
    rw [hd, if_neg (by norm_num : ¬7 < 5), hts]
    push_cast
    simp only [hmaxq, Prod.mk.injEq]
    constructor
    · rw [decide_eq_true_iff]
      norm_num [FuzzyMatcher.default_threshold]
    · norm_num
  · intro hts
    refine ⟨?_, by norm_num [FuzzyMatcher.default_threshold]⟩
    simp only [FuzzyMatcher.is_match]
    rw [if_neg hmax, hp, if_neg (by norm_num : ¬(1/20 : ℚ) < 3/100), hs, hb]
    simp only []
    rw [hd, if_neg (by norm_num : ¬7 < 5), hts]
    push_cast
    simp only [hmaxq, Prod.mk.injEq]
    constructor
    · rw [decide_eq_false_iff_not]
      norm_num [FuzzyMatcher.default_threshold]
    · norm_num

/-- C5 witness: a concrete pair (amounts 97 vs 100, dates 5 days
apart) is accepted with a constant 0.9 similarity oracle and rejected
with a constant 0 similarity oracle. -/
theorem c5_witness :
    (FuzzyMatcher.is_match FuzzyMatcher.default_threshold (fun _ _ => 9/10)
        ⟨0, -97, some 10, "debit", "alpha"⟩ ⟨0, 100, some 5, "alpha", ""⟩ =
      (true, 1409/1750) ∧
      FuzzyMatcher.default_threshold ≤ 1409/1750) ∧
    (FuzzyMatcher.is_match FuzzyMatcher.default_threshold (fun _ _ => 0)
        ⟨0, -97, some 10, "debit", "alpha"⟩ ⟨0, 100, some 5, "alpha", ""⟩ =
      (false, 779/1750) ∧
      (779/1750 : ℚ) < FuzzyMatcher.default_threshold) := by
  have hne : FuzzyMatcher.clean_description "alpha" ≠ "" := by decide
  constructor
  · exact (c5_fuzzy_scenario (fun _ _ => 9/10)
      ⟨0, -97, some 10, "debit", "alpha"⟩ ⟨0, 100, some 5, "alpha", ""⟩ 10 5
      rfl rfl (by decide) (by norm_num [FuzzyMatcher.amountDiffPct])).1
      (by
        simp [FuzzyMatcher.textScore, FuzzyMatcher.calculate_similarity, hne]
        norm_num)
  · exact (c5_fuzzy_scenario (fun _ _ => 0)
      ⟨0, -97, some 10, "debit", "alpha"⟩ ⟨0, 100, some 5, "alpha", ""⟩ 10 5
      rfl rfl (by decide) (by norm_num [FuzzyMatcher.amountDiffPct])).2
      (by
        simp [FuzzyMatcher.textScore, FuzzyMatcher.calculate_similarity, hne])

/-- Helper: the business transaction returned by `findFirstBiz` is
never one already registered in the matched-business set. -/
theorem findFirstBiz_eq_some {mb : List Nat} {s : StmtTrans} {bt : String}
    {pool : List BizTrans} {b : BizTrans} :
    ReconciliationEngine.findFirstBiz mb s bt pool = some b → b.id ∉ mb := by
  induction pool with
  | nil =>
    intro h
    simp [ReconciliationEngine.findFirstBiz] at h
  | cons x xs ih =>
    intro h
    rw [ReconciliationEngine.findFirstBiz] at h
    split_ifs at h with h1 h2
    · exact ih h
    · cases h
      exact h1
    · exact ih h

/-- Helper: `_create_reconciliation_record` appends exactly one
record row when the insert succeeds and none otherwise, regardless of
how the status flips fare. -/
theorem create_reconciliation_record_records (flags : WriteFlags) (m : MatchRec)
    (st : Store) :
    ((ReconciliationEngine.create_reconciliation_record flags m st).1).reconciliation_records =
      st.reconciliation_records ++
        (if flags.insertOk then [toReconRecord m] else []) := by
  rcases flags with ⟨i, bz, sm⟩
  cases i <;> cases bz <;> cases sm <;>
    simp only [ReconciliationEngine.create_reconciliation_record,
      TransactionManager.create_reconciliation,
      TransactionManager.update_transaction_reconciliation_status,
      TransactionManager.update_statement_transaction_match,
      Bool.not_true, Bool.not_false, if_true, if_false, ite_true, ite_false] <;>
    split_ifs <;> simp_all

/-- Helper: `exactPass` preserves the at-most-one-match invariant. -/
theorem exactPass_inv (flags : WriteFlags) (bt : String) (pool : List BizTrans) :
    ∀ (ss : List StmtTrans) (st : ReconciliationEngine.EngineSt),
      ReconciliationEngine.MatchedInv st →
      ReconciliationEngine.MatchedInv (ReconciliationEngine.exactPass flags bt pool ss st) := by
  intro ss
  induction ss with
  | nil =>
    intro st h
    exact h
  | cons s rest ih =>
    intro st h
    rw [ReconciliationEngine.exactPass]
    by_cases hmem : s.id ∈ st.matched_statements
    · rw [if_pos hmem]
      exact ih st h
    · rw [if_neg hmem]
      rcases hfind : ReconciliationEngine.findFirstBiz st.matched_business s bt pool with
        _ | b
      · exact ih st h
      · apply ih
        obtain ⟨hn1, hn2, hmem3⟩ := h
        have hbid : b.id ∉ st.matched_business := findFirstBiz_eq_some hfind
        simp only [ReconciliationEngine.MatchedInv]
        refine ⟨?_, ?_, ?_⟩
        · rw [List.map_append]
          simp only [List.map_cons, List.map_nil]
          apply nodup_append_singleton.2
          refine ⟨hn1, ?_⟩
          intro hin
          obtain ⟨m', hm', hid⟩ := List.mem_map.1 hin
          exact hmem (hid ▸ (hmem3 m' hm').1)
        · rw [List.map_append]
          simp only [List.map_cons, List.map_nil]
          apply nodup_append_singleton.2
          refine ⟨hn2, ?_⟩
          intro hin
          obtain ⟨m', hm', hid⟩ := List.mem_map.1 hin
          exact hbid (hid ▸ (hmem3 m' hm').2)
        · intro m' hm'
          rcases List.mem_append.1 hm' with h1 | h2
          · obtain ⟨q1, q2⟩ := hmem3 m' h1
            exact ⟨List.mem_cons_of_mem _ q1, List.mem_cons_of_mem _ q2⟩
          · rw [List.mem_singleton] at h2
            subst h2
            exact ⟨List.mem_cons_self _ _, List.mem_cons_self _ _⟩

/-- Helper: `exactPass` preserves the records/matches correspondence. -/
theorem exactPass_recordsInv (flags : WriteFlags) (bt : String) (pool : List BizTrans)
    (init : List ReconRecord) :
    ∀ (ss : List StmtTrans) (st : ReconciliationEngine.EngineSt),
      ReconciliationEngine.RecordsInv flags init st →
      ReconciliationEngine.RecordsInv flags init
        (ReconciliationEngine.exactPass flags bt pool ss st) := by
  intro ss
  induction ss with
  | nil =>
    intro st h
    exact h
  | cons s rest ih =>
    intro st h
    rw [ReconciliationEngine.exactPass]
    by_cases hmem : s.id ∈ st.matched_statements
    · rw [if_pos hmem]
      exact ih st h
    · rw [if_neg hmem]
      rcases hfind : ReconciliationEngine.findFirstBiz st.matched_business s bt pool with
        _ | b
      · exact ih st h
      · apply ih
        simp only [ReconciliationEngine.RecordsInv] at h ⊢
        rw [create_reconciliation_record_records, h]
        cases hIns : flags.insertOk <;>
          simp [List.map_append, List.append_assoc]

/-- C1: after any single reconciliation run, no statement id and no
business id appears in more than one produced match, and likewise no
id appears in more than one reconciliation record created in the
store — for every input set of unreconciled statement, outgoing and
incoming transactions, every write-success configuration, and every
initial store without prior records. -/
theorem c1_at_most_one_match (flags : WriteFlags) (statements : List StmtTrans)
    (outgoing incoming : List BizTrans) (store0 : Store)
    (h0 : store0.reconciliation_records = []) :
    (((ReconciliationEngine.run_reconciliation flags statements outgoing incoming
        store0).results.exact_matches ++
      (ReconciliationEngine.run_reconciliation flags statements outgoing incoming
        store0).results.fuzzy_matches ++
      (ReconciliationEngine.run_reconciliation flags statements outgoing incoming
        store0).results.amount_matches ++
      (ReconciliationEngine.run_reconciliation flags statements outgoing incoming
        store0).results.date_matches).map
        (fun m => m.statement_transaction.id)).Nodup ∧
    (((ReconciliationEngine.run_reconciliation flags statements outgoing incoming
        store0).results.exact_matches ++
      (ReconciliationEngine.run_reconciliation flags statements outgoing incoming
        store0).results.fuzzy_matches ++
      (ReconciliationEngine.run_reconciliation flags statements outgoing incoming
        store0).results.amount_matches ++
      (ReconciliationEngine.run_reconciliation flags statements outgoing incoming
        store0).results.date_matches).map
        (fun m => m.business_transaction.id)).Nodup ∧
    ((ReconciliationEngine.run_reconciliation flags statements outgoing incoming
        store0).store.reconciliation_records.map
        (fun r => r.statement_transaction_id)).Nodup ∧
    ((ReconciliationEngine.run_reconciliation flags statements outgoing incoming
        store0).store.reconciliation_records.map
        (fun r => r.business_transaction_id)).Nodup := by
  have hinv : ReconciliationEngine.MatchedInv
      (ReconciliationEngine.exactPass flags "incoming" incoming statements
        (ReconciliationEngine.exactPass flags "outgoing" outgoing statements
          { matched_statements := []
            matched_business := []
            exact_matches := []
            store := store0
            warnings := [] })) :=
    exactPass_inv _ _ _ _ _
      (exactPass_inv _ _ _ _ _ ⟨List.nodup_nil, List.nodup_nil, by simp⟩)
  have hrec : ReconciliationEngine.RecordsInv flags []
      (ReconciliationEngine.exactPass flags "incoming" incoming statements
        (ReconciliationEngine.exactPass flags "outgoing" outgoing statements
          { matched_statements := []
            matched_business := []
            exact_matches := []
            store := store0
            warnings := [] })) := by
    apply exactPass_recordsInv
    apply exactPass_recordsInv
    simp only [ReconciliationEngine.RecordsInv]
    cases flags.insertOk <;> simp [h0]
  obtain ⟨hn1, hn2, -⟩ := hinv
  have he : (ReconciliationEngine.run_reconciliation flags statements outgoing incoming
      store0).results.exact_matches =
      (ReconciliationEngine.exactPass flags "incoming" incoming statements
        (ReconciliationEngine.exactPass flags "outgoing" outgoing statements
          { matched_statements := []
            matched_business := []
            exact_matches := []
            store := store0
            warnings := [] })).exact_matches := rfl
  have hfu : (ReconciliationEngine.run_reconciliation flags statements outgoing incoming
      store0).results.fuzzy_matches = [] := rfl
  have ham : (ReconciliationEngine.run_reconciliation flags statements outgoing incoming
      store0).results.amount_matches = [] := rfl
  have hda : (ReconciliationEngine.run_reconciliation flags statements outgoing incoming
      store0).results.date_matches = [] := rfl
  refine ⟨?_, ?_, ?_, ?_⟩
  case refine_1 =>
    simp only [he, hfu, ham, hda, List.append_nil]
    exact hn1
  case refine_2 =>
    simp only [he, hfu, ham, hda, List.append_nil]
    exact hn2
  case refine_3 =>
    have hs : (ReconciliationEngine.run_reconciliation flags statements outgoing
        incoming store0).store.reconciliation_records =
        [] ++ (if flags.insertOk then
          (ReconciliationEngine.exactPass flags "incoming" incoming statements
            (ReconciliationEngine.exactPass flags "outgoing" outgoing statements
              { matched_statements := []
                matched_business := []
                exact_matches := []
                store := store0
                warnings := [] })).exact_matches.map toReconRecord else []) := hrec
    rw [hs]
    cases flags.insertOk <;> simp [List.map_map]
    · simpa [Function.comp, toReconRecord] using hn1
  case refine_4 =>
    have hs : (ReconciliationEngine.run_reconciliation flags statements outgoing
        incoming store0).store.reconciliation_records =
        [] ++ (if flags.insertOk then
          (ReconciliationEngine.exactPass flags "incoming" incoming statements
            (ReconciliationEngine.exactPass flags "outgoing" outgoing statements
              { matched_statements := []
                matched_business := []
                exact_matches := []
                store := store0
                warnings := [] })).exact_matches.map toReconRecord else []) := hrec
    rw [hs]
    cases flags.insertOk <;> simp [List.map_map]
    · simpa [Function.comp, toReconRecord] using hn2

/-- C1 witness: the records created by a concrete two-statement run
carry duplicate-free statement ids. -/
theorem c1_witness :
    ((ReconciliationEngine.run_reconciliation ⟨true, true, true⟩
        [⟨0, -425, some 100, "debit", "a"⟩, ⟨1, 100, some 100, "credit", "b"⟩]
        [⟨0, 425, some 100, "a", ""⟩] [⟨1, 100, some 101, "b", ""⟩]
        ⟨[], [(0, "unreconciled")], [(1, "unreconciled")], [(0, false), (1, false)]⟩
      ).store.reconciliation_records.map (fun r => r.statement_transaction_id)).Nodup :=
  (c1_at_most_one_match ⟨true, true, true⟩
    [⟨0, -425, some 100, "debit", "a"⟩, ⟨1, 100, some 100, "credit", "b"⟩]
    [⟨0, 425, some 100, "a", ""⟩] [⟨1, 100, some 101, "b", ""⟩]
    ⟨[], [(0, "unreconciled")], [(1, "unreconciled")], [(0, false), (1, false)]⟩
    rfl).2.2.1

/-- C7 counterexample: in a run where the business-status flip fails
right after the record insert (statement 0 exact-matches outgoing 0),
the reconciliation record exists while the business status is still
`unreconciled` and the statement's matched flag is still `false` — a
partial three-part write — yet the results returned to the caller are
IDENTICAL to those of the fully successful run: the failure is only
printed as a warning, never surfaced as an inconsistency. -/
theorem c7_counterexample :
    ((ReconciliationEngine.run_reconciliation ⟨true, false, true⟩
      [⟨0, -425, some 100, "debit", "a"⟩] [⟨0, 425, some 100, "a", ""⟩] []
      ⟨[], [(0, "unreconciled")], [], [(0, false)]⟩).store.reconciliation_records ≠ [] ∧
    lookupAssoc (ReconciliationEngine.run_reconciliation ⟨true, false, true⟩
      [⟨0, -425, some 100, "debit", "a"⟩] [⟨0, 425, some 100, "a", ""⟩] []
      ⟨[], [(0, "unreconciled")], [], [(0, false)]⟩).store.outgoing_status 0 =
      some "unreconciled" ∧
    lookupAssoc (ReconciliationEngine.run_reconciliation ⟨true, false, true⟩
      [⟨0, -425, some 100, "debit", "a"⟩] [⟨0, 425, some 100, "a", ""⟩] []
      ⟨[], [(0, "unreconciled")], [], [(0, false)]⟩).store.statement_matched 0 =
      some false ∧
    (ReconciliationEngine.run_reconciliation ⟨true, false, true⟩
      [⟨0, -425, some 100, "debit", "a"⟩] [⟨0, 425, some 100, "a", ""⟩] []
      ⟨[], [(0, "unreconciled")], [], [(0, false)]⟩).results =
    (ReconciliationEngine.run_reconciliation ⟨true, true, true⟩
      [⟨0, -425, some 100, "debit", "a"⟩] [⟨0, 425, some 100, "a", ""⟩] []
      ⟨[], [(0, "unreconciled")], [], [(0, false)]⟩).results ∧
    (ReconciliationEngine.run_reconciliation ⟨true, false, true⟩
      [⟨0, -425, some 100, "debit", "a"⟩] [⟨0, 425, some 100, "a", ""⟩] []
      ⟨[], [(0, "unreconciled")], [], [(0, false)]⟩).warnings =
      ["Warning: Could not create reconciliation record: Error creating reconciliation: Error updating transaction reconciliation status"]) := by
  norm_num [ReconciliationEngine.run_reconciliation,
    ReconciliationEngine.run_exact_matching,
    ReconciliationEngine.run_fuzzy_matching,
    ReconciliationEngine.run_amount_matching,
    ReconciliationEngine.run_date_matching,
    ReconciliationEngine.exactPass,
    ReconciliationEngine.findFirstBiz,
    ExactMatcher.is_match, lowerStr, lowerL,
    ReconciliationEngine.create_reconciliation_record,
    TransactionManager.create_reconciliation,
    TransactionManager.update_transaction_reconciliation_status,
    TransactionManager.update_statement_transaction_match,
    setAssoc, toReconRecord, lookupAssoc,
    ReconciliationEngine.generate_summary]
  have hlow : ({ data := ['d'.toLower, 'e'.toLower, 'b'.toLower, 'i'.toLower, 't'.toLower] } : String) = "debit" := by
    decide
  simp [hlow, List.find?]

/-- C7 (amended): each successful match calls `create_reconciliation`,
which performs the three writes in sequence — record insert, business
`reconciliation_status` flip to `matched`, statement `is_matched` flip
to true — and when every write succeeds all three take effect; but the
writes are not atomic: when a status flip raises after the insert, the
inserted record persists, the remaining flips are skipped, and
`_create_reconciliation_record` catches the error and reports it only
as a printed warning — the caller receives a normal return with no
failure indication (and an insert failure is likewise only a printed
warning). -/
theorem c7_match_writes_not_surfaced (m : MatchRec) (st : Store) :
    (∀ bz sm : Bool,
      ((ReconciliationEngine.create_reconciliation_record ⟨true, bz, sm⟩ m st).1).reconciliation_records =
        st.reconciliation_records ++ [toReconRecord m]) ∧
    (m.business_transaction_type = "outgoing" →
      ReconciliationEngine.create_reconciliation_record ⟨true, true, true⟩ m st =
        ({ st with
            reconciliation_records := st.reconciliation_records ++ [toReconRecord m]
            outgoing_status :=
              setAssoc m.business_transaction.id "matched" st.outgoing_status
            statement_matched :=
              setAssoc m.statement_transaction.id true st.statement_matched },
          [])) ∧
    (m.business_transaction_type = "outgoing" →
      ReconciliationEngine.create_reconciliation_record ⟨true, false, true⟩ m st =
        ({ st with
            reconciliation_records := st.reconciliation_records ++ [toReconRecord m] },
          ["Warning: Could not create reconciliation record: Error creating reconciliation: Error updating transaction reconciliation status"])) ∧
    (∀ bz sm : Bool,
      ReconciliationEngine.create_reconciliation_record ⟨false, bz, sm⟩ m st =
        (st, ["Warning: Could not create reconciliation record: Error creating reconciliation"])) := by
  refine ⟨?_, ?_, ?_, ?_⟩
  · intro bz sm
    exact create_reconciliation_record_records ⟨true, bz, sm⟩ m st
  · intro hbt
    simp [ReconciliationEngine.create_reconciliation_record,
      TransactionManager.create_reconciliation,
      TransactionManager.update_transaction_reconciliation_status,
      TransactionManager.update_statement_transaction_match,
      toReconRecord, hbt]
  · intro hbt
    simp [ReconciliationEngine.create_reconciliation_record,
      TransactionManager.create_reconciliation,
      TransactionManager.update_transaction_reconciliation_status,
      TransactionManager.update_statement_transaction_match,
      toReconRecord, hbt]
  · intro bz sm
    simp [ReconciliationEngine.create_reconciliation_record,
      TransactionManager.create_reconciliation]

/-- C7 witness: the amended statement applied to a concrete outgoing
match against a concrete store. -/
theorem c7_witness :
    ReconciliationEngine.create_reconciliation_record ⟨true, false, true⟩
      ⟨⟨0, -425, some 100, "debit", "a"⟩, ⟨0, 425, some 100, "a", ""⟩,
        "outgoing", 1, "exact"⟩
      ⟨[], [(0, "unreconciled")], [], [(0, false)]⟩ =
      (⟨[⟨0, 0, "outgoing", "exact", 1, "system"⟩],
        [(0, "unreconciled")], [], [(0, false)]⟩,
       ["Warning: Could not create reconciliation record: Error creating reconciliation: Error updating transaction reconciliation status"]) :=
  (c7_match_writes_not_surfaced
    ⟨⟨0, -425, some 100, "debit", "a"⟩, ⟨0, 425, some 100, "a", ""⟩,
      "outgoing", 1, "exact"⟩
    ⟨[], [(0, "unreconciled")], [], [(0, false)]⟩).2.2.1 rfl

/-- C6 witness: a concrete results dictionary with no matches and one
unmatched statement has rate 0. -/
theorem c6_witness :
    (ReconciliationEngine.generate_summary
      ⟨[], [], [], [], [⟨7, 5, some 0, "debit", "d"⟩], []⟩).reconciliation_rate = 0 :=
  (c6_reconciliation_rate ⟨[], [], [], [], [⟨7, 5, some 0, "debit", "d"⟩], []⟩).2.2.2.1 rfl

end VendorPay
